import Mathlib

/-!
Verification of the target-lifecycle reconciliation and health-probe subsystem
of the WSU_DevOps_2025 monitoring stack.

The embedding mirrors the Python sources:
  modules/MonitoringLambda.py      — health prober (monitor_website)
  modules/InfrastructureLambda.py  — stream-driven reconciler
                                     (lambda_handler, handle_website_added,
                                      handle_website_removed,
                                      add_dashboard_widgets, remove_dashboard_widgets)
  modules/DashboardManagerLambda.py — alternate alarm manager
                                     (create_alarms_for_website,
                                      create_anomaly_detection_alarm,
                                      delete_alarms_for_website)

CloudWatch backend state (alarm names, anomaly detectors, the single dashboard
document) is modelled explicitly; every backend call is recorded in a trace so
that ordering and fault-isolation properties can be stated.  Exceptions are
modelled by Boolean raised/ok flags threaded through the control flow exactly
as the try/except blocks of the source dictate.  Wall-clock measurements are
modelled as exact rationals (the source rounds to two decimals; no claim
depends on rounding).
-/

/-- JSON-like values appearing in a MonitoringResult dictionary. -/
inductive JVal where
  | num (q : ℚ)
  | str (s : String)
  | bool (b : Bool)
  | null
deriving DecidableEq

/-- A Python dict, modelled as an ordered association list so that the
presence and the absence of a key are distinguishable. -/
abbrev JObj := List (String × JVal)

/-- Outcome of the single urllib GET performed by the prober:
either a response object (urlopen returned), an HTTPError (4xx/5xx raised by
urllib with a code and reason), or any other exception (timeout, DNS,
connection refused). The measured wall-clock latency in ms and the body size
in bytes are inputs, standing for the values the source measures. -/
inductive Transport where
  | response (statusCode : Nat) (bodyBytes : Nat) (latencyMs : ℚ)
  | httpError (code : Nat) (reason : String) (latencyMs : ℚ)
  | failure (msg : String)

/-- modules/MonitoringLambda.py, monitor_website: performs one HTTP GET and
returns a structured result dictionary; never raises (every exception class
is converted into a result). `ts` models time.time(). -/
def monitor_website (websiteName targetUrl : String) (t : Transport) (ts : ℚ) : JObj :=
  match t with
  | .response statusCode bodyBytes latencyMs =>
    let availability : ℚ := if statusCode = 200 then 1 else 0
    let throughput : ℚ := if 0 < latencyMs then (bodyBytes : ℚ) / (latencyMs / 1000) else 0
    [("website_name", .str websiteName),
     ("url", .str targetUrl),
     ("availability", .num availability),
     ("latency_ms", .num latencyMs),
     ("throughput_bps", .num throughput),
     ("response_size_bytes", .num bodyBytes),
     ("status_code", .num statusCode),
     ("timestamp", .num ts),
     ("success", .bool true)]
  | .httpError code reason latencyMs =>
    [("website_name", .str websiteName),
     ("url", .str targetUrl),
     ("availability", .num 0),
     ("latency_ms", .num latencyMs),
     ("throughput_bps", .num 0),
     ("status_code", .num code),
     ("error", .str ("HTTP " ++ toString code ++ ": " ++ reason)),
     ("timestamp", .num ts),
     ("success", .bool false)]
  | .failure msg =>
    [("website_name", .str websiteName),
     ("url", .str targetUrl),
     ("availability", .num 0),
     ("latency_ms", .null),
     ("throughput_bps", .num 0),
     ("error", .str msg),
     ("timestamp", .num ts),
     ("success", .bool false)]

/-! ## CloudWatch backend model and the reconciler (InfrastructureLambda.py) -/

/-- Shared constants from modules/constants.py. -/
def METRIC_NAMESPACE : String := "WebMonitoring/Health"

def METRIC_AVAILABILITY : String := "Availability"

def METRIC_LATENCY : String := "Latency"

def METRIC_THROUGHPUT : String := "Throughput"

def DIM_WEBSITE : String := "Website"

/-- Alarm naming convention used by both alarm managers. -/
def availabilityAlarmName (websiteName : String) : String :=
  websiteName ++ "-Availability-Alarm"

def latencyAlarmName (websiteName : String) : String :=
  websiteName ++ "-Latency-Alarm"

def throughputAlarmName (websiteName : String) : String :=
  websiteName ++ "-Throughput-Alarm"

/-- The three deterministic alarm names for a website, in the order
handle_website_removed lists them. -/
def alarmNamesFor (websiteName : String) : List String :=
  [availabilityAlarmName websiteName, latencyAlarmName websiteName,
   throughputAlarmName websiteName]

/-- A metric-series entry of a dashboard widget: the JSON array
[Namespace, MetricName, DimName, DimValue, options].  The code only ever
inspects the length and index 3 (the dimension value); the options dict is
modelled by its label string. -/
abbrev MetricEntry := List String

/-- One dashboard widget; only the title and the metrics array are inspected
by the source. -/
structure Widget where
  title : String
  metrics : List MetricEntry
deriving DecidableEq

/-- The dashboard document body. -/
structure Dashboard where
  widgets : List Widget
deriving DecidableEq

/-- One CloudWatch API call, recorded in the trace of an execution. -/
inductive CWCall where
  | putMetricAlarm (alarmName : String)
  | deleteAlarms (alarmNames : List String)
  | putAnomalyDetector (metricName websiteName : String)
  | deleteAnomalyDetector (metricName websiteName : String)
  | getDashboard
  | putDashboard
deriving DecidableEq

/-- CloudWatch backend state: the set of existing alarm names, the set of
existing anomaly detectors (metric name x website name), the dashboard
document (none = the dashboard resource does not exist), and the trace of
calls issued so far. -/
structure CWState where
  alarms : List String
  detectors : List (String × String)
  dashboard : Option Dashboard
  calls : List CWCall
deriving DecidableEq

/-- Fault injection: which backend calls succeed in a given execution. -/
structure Env where
  putAlarmOk : String → Bool
  deleteAlarmsOk : Bool
  putDashboardOk : Bool

/-- Record a backend call in the trace. -/
def recordCall (c : CWCall) (s : CWState) : CWState :=
  { s with calls := s.calls ++ [c] }

/-- put_metric_alarm overwrites an existing alarm of the same name, so the
alarm-name set gains the name at most once. -/
def insertAlarm (alarmName : String) (l : List String) : List String :=
  if alarmName ∈ l then l else alarmName :: l

/-- cloudwatch.put_metric_alarm: returns the new state and whether the call
succeeded (false = the call raised). -/
def putMetricAlarm (env : Env) (alarmName : String) (s : CWState) : CWState × Bool :=
  let s1 := recordCall (.putMetricAlarm alarmName) s
  if env.putAlarmOk alarmName then
    ({ s1 with alarms := insertAlarm alarmName s1.alarms }, true)
  else (s1, false)

/-- cloudwatch.delete_alarms on a batch of names, as issued by
handle_website_removed: on success every listed alarm is removed (CloudWatch
batch deletion does not fail on absent names); false = the call raised. -/
def deleteAlarmsBatch (env : Env) (names : List String) (s : CWState) : CWState × Bool :=
  let s1 := recordCall (.deleteAlarms names) s
  if env.deleteAlarmsOk then
    ({ s1 with alarms := s1.alarms.filter (fun a => decide (a ∉ names)) }, true)
  else (s1, false)

/-- Aggregate-widget titles created by the CDK stack and matched by
add_dashboard_widgets / remove_dashboard_widgets. -/
def AVAILABILITY_TITLE : String := "Website Availability (All Sites)"

def LATENCY_TITLE : String := "Response Time - All Websites (ms)"

def THROUGHPUT_TITLE : String := "Throughput - All Websites (bytes/s)"

/-- The test `len(m) >= 4 and m[3] == v` applied to a metric entry. -/
def entryMatches (v : String) (m : MetricEntry) : Bool :=
  decide (4 ≤ m.length) && (m.get? 3 == some v)

/-- Strip placeholder entries (dimension value "__placeholder__") from a
widget's metrics, as add_dashboard_widgets does before appending. -/
def stripPlaceholder (ms : List MetricEntry) : List MetricEntry :=
  ms.filter (fun m => !entryMatches "__placeholder__" m)

/-- The new metric series appended for a website:
[Namespace, MetricName, DimName, DimValue, label-options]. -/
def newSeries (metricName websiteName : String) : MetricEntry :=
  [METRIC_NAMESPACE, metricName, DIM_WEBSITE, websiteName, websiteName]

/-- Mutation applied by add_dashboard_widgets to one found aggregate widget. -/
def addSeries (metricName websiteName : String) (w : Widget) : Widget :=
  { w with metrics := stripPlaceholder w.metrics ++ [newSeries metricName websiteName] }

/-- Update the first widget with the given title (helper). -/
def updateFirstMatching (t : String) (f : Widget → Widget) : List Widget → List Widget
  | [] => []
  | w :: ws => if w.title = t then f w :: ws else w :: updateFirstMatching t f ws

/-- The source scans all widgets and keeps the last one found for each title,
then mutates that object in place; equivalently, update the last widget
carrying the title. -/
def updateLastMatching (ws : List Widget) (t : String) (f : Widget → Widget) : List Widget :=
  (updateFirstMatching t f ws.reverse).reverse

/-- modules/InfrastructureLambda.py, add_dashboard_widgets: read-modify-write
of the dashboard document, appending one series per aggregate widget.  A
missing dashboard (ResourceNotFound) and a failing put_dashboard are caught;
the function never raises. -/
def add_dashboard_widgets (env : Env) (websiteName : String) (s : CWState) : CWState :=
  let s1 := recordCall .getDashboard s
  match s1.dashboard with
  | none => s1
  | some d =>
    let ws := updateLastMatching d.widgets AVAILABILITY_TITLE
      (addSeries METRIC_AVAILABILITY websiteName)
    let ws := updateLastMatching ws LATENCY_TITLE (addSeries METRIC_LATENCY websiteName)
    let ws := updateLastMatching ws THROUGHPUT_TITLE (addSeries METRIC_THROUGHPUT websiteName)
    let s2 := recordCall .putDashboard s1
    if env.putDashboardOk then { s2 with dashboard := some ⟨ws⟩ } else s2

/-- Placeholder entry written when a widget would become empty. -/
def placeholderEntry (metricName : String) : MetricEntry :=
  [METRIC_NAMESPACE, metricName, DIM_WEBSITE, "__placeholder__"]

/-- Metric name chosen for the placeholder from the widget title.  The source
dispatches on substrings; on the three aggregate titles (the only titles that
reach this code) the substring tests coincide with these equality tests. -/
def placeholderMetricName (title : String) : String :=
  if title = AVAILABILITY_TITLE then METRIC_AVAILABILITY
  else if title = LATENCY_TITLE then METRIC_LATENCY
  else METRIC_THROUGHPUT

/-- Per-widget step of remove_dashboard_widgets: filter the website's series
out of an aggregate widget, substitute a placeholder if the filtered list is
empty, and update the widget only if the final list is shorter than the
original; returns the (possibly unchanged) widget and the number of metrics
counted as removed. -/
def removeFromWidget (websiteName : String) (w : Widget) : Widget × Nat :=
  if w.title = AVAILABILITY_TITLE ∨ w.title = LATENCY_TITLE ∨ w.title = THROUGHPUT_TITLE then
    let originalCount := w.metrics.length
    let filtered := w.metrics.filter (fun m => !entryMatches websiteName m)
    let filtered := if filtered.length = 0
      then [placeholderEntry (placeholderMetricName w.title)] else filtered
    if filtered.length < originalCount then
      ({ w with metrics := filtered }, originalCount - filtered.length)
    else (w, 0)
  else (w, 0)

/-- modules/InfrastructureLambda.py, remove_dashboard_widgets: read-modify-
write of the dashboard document; put_dashboard is issued only when
removed_count > 0.  A missing dashboard and any backend failure are caught;
the function never raises. -/
def remove_dashboard_widgets (env : Env) (websiteName : String) (s : CWState) : CWState :=
  let s1 := recordCall .getDashboard s
  match s1.dashboard with
  | none => s1
  | some d =>
    let results := d.widgets.map (removeFromWidget websiteName)
    let removedCount := (results.map Prod.snd).sum
    if 0 < removedCount then
      let s2 := recordCall .putDashboard s1
      if env.putDashboardOk then { s2 with dashboard := some ⟨results.map Prod.fst⟩ } else s2
    else s1

/-- modules/InfrastructureLambda.py, handle_website_added: create the three
alarms in order (Availability, Latency, Throughput); a failure is re-raised
(second component true) and nothing further runs; on success the dashboard
widgets are added. -/
def handle_website_added (env : Env) (websiteName : String) (s : CWState) : CWState × Bool :=
  let r1 := putMetricAlarm env (availabilityAlarmName websiteName) s
  if !r1.2 then (r1.1, true) else
  let r2 := putMetricAlarm env (latencyAlarmName websiteName) r1.1
  if !r2.2 then (r2.1, true) else
  let r3 := putMetricAlarm env (throughputAlarmName websiteName) r2.1
  if !r3.2 then (r3.1, true) else
  (add_dashboard_widgets env websiteName r3.1, false)

/-- modules/InfrastructureLambda.py, handle_website_removed: one batched
delete_alarms call followed by the dashboard-widget removal, both inside a
single try block whose handler swallows the exception, so the function never
raises; if delete_alarms raises, remove_dashboard_widgets is not reached. -/
def handle_website_removed (env : Env) (websiteName : String) (s : CWState) : CWState :=
  let r := deleteAlarmsBatch env (alarmNamesFor websiteName) s
  if r.2 then remove_dashboard_widgets env websiteName r.1 else r.1

/-- One DynamoDB stream record, reduced to the fields the handler reads. -/
inductive StreamRecord where
  | insert (name : String)
  | remove (name : String)
  | modify (oldName newName : String)
deriving DecidableEq

/-- Processing of a single stream record by lambda_handler's loop body;
the second component reports whether the body raised (the exception the
per-record try/except catches). -/
def processRecord (env : Env) (s : CWState) (r : StreamRecord) : CWState × Bool :=
  match r with
  | .insert n => handle_website_added env n s
  | .remove n => (handle_website_removed env n s, false)
  | .modify o n =>
    if o ≠ n then
      let s1 := handle_website_removed env o s
      handle_website_added env n s1
    else (s, false)

/-- modules/InfrastructureLambda.py, lambda_handler: records are processed
one at a time in delivery order; an exception from one record is caught and
logged and the loop continues with the next record. -/
def lambda_handler (env : Env) (records : List StreamRecord) (s : CWState) : CWState :=
  match records with
  | [] => s
  | r :: rs => lambda_handler env rs (processRecord env s r).1

/-! ## DashboardManagerLambda.py alarm manager (anomaly baselines) -/

/-- cloudwatch.put_anomaly_detector: creating an already-existing detector
raises ResourceConflictException, which the source catches and logs; either
way execution continues and afterwards the detector exists. -/
def putAnomalyDetector (metricName websiteName : String) (s : CWState) : CWState :=
  let s1 := recordCall (.putAnomalyDetector metricName websiteName) s
  if (metricName, websiteName) ∈ s1.detectors then s1
  else { s1 with detectors := (metricName, websiteName) :: s1.detectors }

/-- modules/DashboardManagerLambda.py, create_anomaly_detection_alarm:
step 1 creates the anomaly detector (conflict tolerated), step 2 creates the
anomaly-band alarm; a failure of step 2 propagates (second component false =
the put_metric_alarm call raised). -/
def create_anomaly_detection_alarm (env : Env) (websiteName metricName alarmSuffix : String)
    (s : CWState) : CWState × Bool :=
  let s1 := putAnomalyDetector metricName websiteName s
  putMetricAlarm env (websiteName ++ "-" ++ alarmSuffix) s1

/-- modules/DashboardManagerLambda.py, create_alarms_for_website: the
Availability threshold alarm, then for each of Latency and Throughput the
anomaly detector followed by its anomaly-band alarm; any alarm-creation
failure is re-raised (second component true). -/
def create_alarms_for_website (env : Env) (websiteName : String) (s : CWState) : CWState × Bool :=
  let r1 := putMetricAlarm env (availabilityAlarmName websiteName) s
  if !r1.2 then (r1.1, true) else
  let r2 := create_anomaly_detection_alarm env websiteName METRIC_LATENCY "Latency-Alarm" r1.1
  if !r2.2 then (r2.1, true) else
  let r3 := create_anomaly_detection_alarm env websiteName METRIC_THROUGHPUT "Throughput-Alarm" r2.1
  if !r3.2 then (r3.1, true) else
  (r3.1, false)

/-- Response of a single-resource delete call. -/
inductive DelResp where
  | ok
  | notFound
deriving DecidableEq

/-- cloudwatch.delete_alarms(AlarmNames=[alarmName]) as issued one alarm at a
time by delete_alarms_for_website; an absent alarm yields the
ResourceNotFound response that the source treats as already-deleted. -/
def deleteSingleAlarm (alarmName : String) (s : CWState) : CWState × DelResp :=
  let s1 := recordCall (.deleteAlarms [alarmName]) s
  if alarmName ∈ s1.alarms then
    ({ s1 with alarms := s1.alarms.filter (fun a => a != alarmName) }, .ok)
  else (s1, .notFound)

/-- cloudwatch.delete_anomaly_detector; an absent detector yields the
ResourceNotFoundException response the source treats as success. -/
def deleteAnomalyDetector (metricName websiteName : String) (s : CWState) : CWState × DelResp :=
  let s1 := recordCall (.deleteAnomalyDetector metricName websiteName) s
  if (metricName, websiteName) ∈ s1.detectors then
    ({ s1 with detectors := s1.detectors.filter (fun d => d != (metricName, websiteName)) }, .ok)
  else (s1, .notFound)

/-- modules/DashboardManagerLambda.py, delete_alarms_for_website: deletes the
three alarms one call each, then the two anomaly detectors; every per-call
try/except catches both the not-found response and any other failure, so the
responses are dropped and the function never raises. -/
def delete_alarms_for_website (websiteName : String) (s : CWState) : CWState :=
  let s1 := (deleteSingleAlarm (availabilityAlarmName websiteName) s).1
  let s2 := (deleteSingleAlarm (latencyAlarmName websiteName) s1).1
  let s3 := (deleteSingleAlarm (throughputAlarmName websiteName) s2).1
  let s4 := (deleteAnomalyDetector METRIC_LATENCY websiteName s3).1
  (deleteAnomalyDetector METRIC_THROUGHPUT websiteName s4).1

/-- Boolean string-prefix test used to state the naming-convention claims. -/
def strStartsWith (p s : String) : Bool := p.data.isPrefixOf s.data

/-! ## Concrete fixtures for witnesses and counterexamples -/

/-- Environment in which every backend call succeeds. -/
def envAllOk : Env := ⟨fun _ => true, true, true⟩

/-- Environment in which the batched delete_alarms call raises. -/
def envNoDelete : Env := ⟨fun _ => true, false, true⟩

/-- Environment in which put_metric_alarm raises for the Availability alarm
of website X and succeeds for every other alarm name. -/
def envFailX : Env := ⟨fun a => !(a == availabilityAlarmName "X"), true, true⟩

/-- An aggregate availability widget holding exactly one series (SiteA). -/
def exampleWidget : Widget :=
  ⟨AVAILABILITY_TITLE, [newSeries METRIC_AVAILABILITY "SiteA"]⟩

/-- An aggregate availability widget holding series for SiteA and SiteB. -/
def exampleWidget2 : Widget :=
  ⟨AVAILABILITY_TITLE, [newSeries METRIC_AVAILABILITY "SiteA",
    newSeries METRIC_AVAILABILITY "SiteB"]⟩

/-- Backend state holding the three alarms for website A and no dashboard. -/
def renameState : CWState := ⟨alarmNamesFor "A", [], none, []⟩

/-- Backend state holding SiteA's alarms and a two-series dashboard. -/
def dashState : CWState := ⟨alarmNamesFor "SiteA", [], some ⟨[exampleWidget2]⟩, []⟩

/-- Backend state whose dashboard widget holds only SiteA's series. -/
def lastTargetState : CWState := ⟨[], [], some ⟨[exampleWidget]⟩, []⟩

/-- Backend state in which both anomaly detectors for Site already exist. -/
def detectorState : CWState :=
  ⟨[], [(METRIC_LATENCY, "Site"), (METRIC_THROUGHPUT, "Site")], none, []⟩

/-- Empty backend state. -/
def emptyState : CWState := ⟨[], [], none, []⟩

/-! ## Helper lemmas -/

/-- Adding dashboard widgets never touches the alarm set. -/
lemma alarms_add_dashboard (env : Env) (n : String) (s : CWState) :
    (add_dashboard_widgets env n s).alarms = s.alarms := by
  unfold add_dashboard_widgets
  cases hd : s.dashboard
  · simp [recordCall, hd]
  · simp [recordCall, hd]
    split <;> rfl

/-- Removing dashboard widgets never touches the alarm set. -/
lemma alarms_remove_dashboard (env : Env) (n : String) (s : CWState) :
    (remove_dashboard_widgets env n s).alarms = s.alarms := by
  unfold remove_dashboard_widgets
  cases hd : s.dashboard
  · simp [recordCall, hd]
  · simp [recordCall, hd]
    split
    · split <;> rfl
    · rfl

/-- remove_dashboard_widgets always issues the get_dashboard call first. -/
lemma getDashboard_mem_remove (env : Env) (n : String) (s : CWState) :
    CWCall.getDashboard ∈ (remove_dashboard_widgets env n s).calls := by
  unfold remove_dashboard_widgets
  cases hd : s.dashboard
  · simp [recordCall, hd]
  · simp [recordCall, hd]
    split
    · split <;> simp [recordCall]
    · simp

/-- The trace effect of one put_metric_alarm call. -/
lemma calls_putMetricAlarm_eq (env : Env) (a : String) (s : CWState) :
    (putMetricAlarm env a s).1.calls = s.calls ++ [.putMetricAlarm a] := by
  unfold putMetricAlarm recordCall
  split <;> rfl

/-- Membership in the trace survives any trace extension. -/
lemma mem_calls_of_append {s s' : CWState} (h : ∃ t, s'.calls = s.calls ++ t)
    {c : CWCall} (hc : c ∈ s.calls) : c ∈ s'.calls := by
  obtain ⟨t, ht⟩ := h
  rw [ht]
  exact List.mem_append_left _ hc

/-- add_dashboard_widgets only appends to the trace. -/
lemma calls_extends_add_dashboard (env : Env) (n : String) (s : CWState) :
    ∃ t, (add_dashboard_widgets env n s).calls = s.calls ++ t := by
  unfold add_dashboard_widgets
  cases hd : s.dashboard
  · simp [recordCall, hd]
  · simp [recordCall, hd]
    split <;> exact ⟨_, rfl⟩

/-- handle_website_added always issues the Availability put_metric_alarm
call, whatever else succeeds or fails afterwards. -/
lemma mem_calls_handle_added (env : Env) (n : String) (s : CWState) :
    CWCall.putMetricAlarm (availabilityAlarmName n) ∈ (handle_website_added env n s).1.calls := by
  unfold handle_website_added
  have h1 : CWCall.putMetricAlarm (availabilityAlarmName n)
      ∈ (putMetricAlarm env (availabilityAlarmName n) s).1.calls := by
    rw [calls_putMetricAlarm_eq]
    simp
  cases hb1 : (putMetricAlarm env (availabilityAlarmName n) s).2 with
  | false => simpa [hb1] using h1
  | true =>
    simp only [hb1, Bool.not_true, Bool.false_eq_true, if_false, if_neg]
    have h2 : CWCall.putMetricAlarm (availabilityAlarmName n)
        ∈ (putMetricAlarm env (latencyAlarmName n)
            (putMetricAlarm env (availabilityAlarmName n) s).1).1.calls :=
      mem_calls_of_append ⟨_, calls_putMetricAlarm_eq ..⟩ h1
    cases hb2 : (putMetricAlarm env (latencyAlarmName n)
        (putMetricAlarm env (availabilityAlarmName n) s).1).2 with
    | false => simpa [hb2] using h2
    | true =>
      simp only [hb2, Bool.not_true, Bool.false_eq_true, if_false, if_neg]
      have h3 : CWCall.putMetricAlarm (availabilityAlarmName n)
          ∈ (putMetricAlarm env (throughputAlarmName n) (putMetricAlarm env (latencyAlarmName n)
              (putMetricAlarm env (availabilityAlarmName n) s).1).1).1.calls :=
        mem_calls_of_append ⟨_, calls_putMetricAlarm_eq ..⟩ h2
      cases hb3 : (putMetricAlarm env (throughputAlarmName n)
          (putMetricAlarm env (latencyAlarmName n)
            (putMetricAlarm env (availabilityAlarmName n) s).1).1).2 with
      | false => simpa [hb3] using h3
      | true =>
        simp only [hb3, Bool.not_true, Bool.false_eq_true, if_false, if_neg]
        exact mem_calls_of_append (calls_extends_add_dashboard ..) h3

/-- Effect of one single-alarm delete on alarm membership. -/
lemma mem_alarms_deleteSingle (x a : String) (s : CWState) :
    a ∈ (deleteSingleAlarm x s).1.alarms ↔ a ∈ s.alarms ∧ a ≠ x := by
  unfold deleteSingleAlarm recordCall
  by_cases hx : x ∈ s.alarms
  · simp [hx, List.mem_filter]
  · simp only [hx, if_true, if_false, if_neg]
    constructor
    · intro ha
      exact ⟨ha, fun he => hx (he ▸ ha)⟩
    · exact fun h => h.1

/-- Deleting an absent alarm leaves the alarm set unchanged and reports the
not-found response. -/
lemma deleteSingle_absent (x : String) (s : CWState) (hx : x ∉ s.alarms) :
    (deleteSingleAlarm x s).1.alarms = s.alarms ∧ (deleteSingleAlarm x s).2 = .notFound := by
  unfold deleteSingleAlarm recordCall
  simp [hx]

/-- Single-alarm deletion never touches the detectors. -/
lemma detectors_deleteSingle (x : String) (s : CWState) :
    (deleteSingleAlarm x s).1.detectors = s.detectors := by
  simp only [deleteSingleAlarm, recordCall]
  split <;> rfl

/-- Detector deletion never touches the alarms. -/
lemma alarms_deleteDetector (m w : String) (s : CWState) :
    (deleteAnomalyDetector m w s).1.alarms = s.alarms := by
  simp only [deleteAnomalyDetector, recordCall]
  split <;> rfl

/-- Effect of one detector delete on detector membership. -/
lemma mem_detectors_deleteDetector (m w : String) (d : String × String) (s : CWState) :
    d ∈ (deleteAnomalyDetector m w s).1.detectors ↔ d ∈ s.detectors ∧ d ≠ (m, w) := by
  unfold deleteAnomalyDetector recordCall
  by_cases hx : (m, w) ∈ s.detectors
  · simp [hx, List.mem_filter]
  · simp only [hx, if_true, if_false, if_neg]
    constructor
    · intro ha
      exact ⟨ha, fun he => hx (he ▸ ha)⟩
    · exact fun h => h.1

/-- Deleting an absent detector leaves the detector set unchanged and reports
the not-found response. -/
lemma deleteDetector_absent (m w : String) (s : CWState) (hx : (m, w) ∉ s.detectors) :
    (deleteAnomalyDetector m w s).1.detectors = s.detectors ∧
    (deleteAnomalyDetector m w s).2 = .notFound := by
  unfold deleteAnomalyDetector recordCall
  simp [hx]

/-- Alarm membership after the full delete_alarms_for_website pass. -/
lemma alarms_delete_for_website (n : String) (s : CWState) (a : String) :
    a ∈ (delete_alarms_for_website n s).alarms ↔
      a ∈ s.alarms ∧ a ∉ alarmNamesFor n := by
  unfold delete_alarms_for_website
  rw [alarms_deleteDetector, alarms_deleteDetector, mem_alarms_deleteSingle,
    mem_alarms_deleteSingle, mem_alarms_deleteSingle]
  simp [alarmNamesFor, and_assoc]

/-- Detector membership after the full delete_alarms_for_website pass. -/
lemma detectors_delete_for_website (n : String) (s : CWState) (d : String × String) :
    d ∈ (delete_alarms_for_website n s).detectors ↔
      d ∈ s.detectors ∧ d ≠ (METRIC_LATENCY, n) ∧ d ≠ (METRIC_THROUGHPUT, n) := by
  unfold delete_alarms_for_website
  rw [mem_detectors_deleteDetector, mem_detectors_deleteDetector, detectors_deleteSingle,
    detectors_deleteSingle, detectors_deleteSingle]
  tauto

/-- A character list is a Boolean prefix of itself extended by anything. -/
lemma isPrefixOf_append_self (l t : List Char) : l.isPrefixOf (l ++ t) = true := by
  induction l with
  | nil => cases t <;> rfl
  | cons c l ih => simp [List.isPrefixOf, ih]

/-- String append acts as list append on the underlying data. -/
lemma strData_append (s t : String) : (s ++ t).data = s.data ++ t.data := by
  cases s
  cases t
  rfl

/-- A string is a prefix of itself extended by anything. -/
lemma strStartsWith_append (p q : String) : strStartsWith p (p ++ q) = true := by
  unfold strStartsWith
  rw [strData_append]
  exact isPrefixOf_append_self _ _

/-- String append is associative. -/
lemma strAppend_assoc (a b c : String) : a ++ b ++ c = a ++ (b ++ c) := by
  apply String.ext
  rw [strData_append, strData_append, strData_append, strData_append, List.append_assoc]

/-- String append is left-cancellative. -/
lemma strAppend_left_cancel {s t u : String} (h : s ++ t = s ++ u) : t = u := by
  apply String.ext
  have h2 := congrArg String.data h
  rw [strData_append, strData_append] at h2
  exact List.append_cancel_left h2

/-- The availability alarm name for w starts with the prefix w followed by a
dash. -/
lemma prefix_avail (w : String) : strStartsWith (w ++ "-") (availabilityAlarmName w) = true := by
  have e : availabilityAlarmName w = (w ++ "-") ++ "Availability-Alarm" := by
    show w ++ "-Availability-Alarm" = (w ++ "-") ++ "Availability-Alarm"
    rw [strAppend_assoc]
    exact congrArg (w ++ ·) (by decide)
  rw [e]
  exact strStartsWith_append _ _

/-- The latency alarm name for w starts with the prefix w followed by a
dash. -/
lemma prefix_lat (w : String) : strStartsWith (w ++ "-") (latencyAlarmName w) = true := by
  have e : latencyAlarmName w = (w ++ "-") ++ "Latency-Alarm" := by
    show w ++ "-Latency-Alarm" = (w ++ "-") ++ "Latency-Alarm"
    rw [strAppend_assoc]
    exact congrArg (w ++ ·) (by decide)
  rw [e]
  exact strStartsWith_append _ _

/-- The throughput alarm name for w starts with the prefix w followed by a
dash. -/
lemma prefix_thr (w : String) : strStartsWith (w ++ "-") (throughputAlarmName w) = true := by
  have e : throughputAlarmName w = (w ++ "-") ++ "Throughput-Alarm" := by
    show w ++ "-Throughput-Alarm" = (w ++ "-") ++ "Throughput-Alarm"
    rw [strAppend_assoc]
    exact congrArg (w ++ ·) (by decide)
  rw [e]
  exact strStartsWith_append _ _

/-- The three template alarm names of one website are pairwise distinct. -/
lemma lat_ne_avail (w : String) : latencyAlarmName w ≠ availabilityAlarmName w := by
  intro h
  have := strAppend_left_cancel h
  exact absurd this (by decide)

lemma thr_ne_avail (w : String) : throughputAlarmName w ≠ availabilityAlarmName w := by
  intro h
  have := strAppend_left_cancel h
  exact absurd this (by decide)

lemma thr_ne_lat (w : String) : throughputAlarmName w ≠ latencyAlarmName w := by
  intro h
  have := strAppend_left_cancel h
  exact absurd this (by decide)

/-- Alarm set after a successful handle_website_removed. -/
lemma handle_removed_alarms (env : Env) (n : String) (s : CWState)
    (h : env.deleteAlarmsOk = true) :
    (handle_website_removed env n s).alarms
      = s.alarms.filter (fun a => decide (a ∉ alarmNamesFor n)) := by
  simp only [handle_website_removed, deleteAlarmsBatch, recordCall, h, if_true]
  rw [alarms_remove_dashboard]

/-- Alarm set after a fully successful handle_website_added. -/
lemma handle_added_alarms (env : Env) (n : String) (s : CWState)
    (h1 : env.putAlarmOk (availabilityAlarmName n) = true)
    (h2 : env.putAlarmOk (latencyAlarmName n) = true)
    (h3 : env.putAlarmOk (throughputAlarmName n) = true) :
    (handle_website_added env n s).1.alarms
      = insertAlarm (throughputAlarmName n)
          (insertAlarm (latencyAlarmName n)
            (insertAlarm (availabilityAlarmName n) s.alarms)) := by
  simp only [handle_website_added, putMetricAlarm, recordCall, h1, h2, h3, if_true,
    Bool.not_true, Bool.false_eq_true, if_false]
  rw [alarms_add_dashboard]

/-! ## Claim theorems -/

/-- C1: a Modified stream record whose old name A differs from its new name B
is processed as a removal of A followed by an addition of B; afterwards, in a
backend state whose only alarms prefixed by the old or the new name were A's
template alarms, no alarm with prefix A remains and the alarms with prefix B
are exactly the three template alarms of B. -/
theorem rename_removes_old_creates_new (env : Env) (s : CWState) (A B : String)
    (hne : A ≠ B)
    (hdel : env.deleteAlarmsOk = true)
    (hB1 : env.putAlarmOk (availabilityAlarmName B) = true)
    (hB2 : env.putAlarmOk (latencyAlarmName B) = true)
    (hB3 : env.putAlarmOk (throughputAlarmName B) = true)
    (hA : ∀ m ∈ s.alarms, strStartsWith (A ++ "-") m = true → m ∈ alarmNamesFor A)
    (hBpre : ∀ m ∈ s.alarms, strStartsWith (B ++ "-") m = false)
    (hAB : ∀ m ∈ alarmNamesFor B, strStartsWith (A ++ "-") m = false) :
    (∀ m ∈ (processRecord env s (.modify A B)).1.alarms,
      strStartsWith (A ++ "-") m = false) ∧
    (processRecord env s (.modify A B)).1.alarms.filter (strStartsWith (B ++ "-"))
      = [throughputAlarmName B, latencyAlarmName B, availabilityAlarmName B] ∧
    ((processRecord env s (.modify A B)).1.alarms.filter (strStartsWith (B ++ "-"))).length
      = 3 := by
  have hstep : (processRecord env s (.modify A B)).1
      = (handle_website_added env B (handle_website_removed env A s)).1 := by
    simp [processRecord, hne]
  have e1 : (handle_website_removed env A s).alarms
      = s.alarms.filter (fun a => decide (a ∉ alarmNamesFor A)) :=
    handle_removed_alarms env A s hdel
  have sub1 : ∀ m ∈ (handle_website_removed env A s).alarms, m ∈ s.alarms := by
    rw [e1]
    intro m hm
    exact (List.mem_filter.mp hm).1
  have subA : ∀ m ∈ (handle_website_removed env A s).alarms, m ∉ alarmNamesFor A := by
    rw [e1]
    intro m hm
    exact of_decide_eq_true (List.mem_filter.mp hm).2
  have hBnot : ∀ m ∈ alarmNamesFor B, m ∉ (handle_website_removed env A s).alarms := by
    intro m hm hmem
    have hfalse := hBpre m (sub1 m hmem)
    have htrue : strStartsWith (B ++ "-") m = true := by
      simp only [alarmNamesFor, List.mem_cons, List.not_mem_nil, or_false] at hm
      rcases hm with h | h | h
      · rw [h]
        exact prefix_avail B
      · rw [h]
        exact prefix_lat B
      · rw [h]
        exact prefix_thr B
    rw [htrue] at hfalse
    cases hfalse
  have e2 : (handle_website_added env B (handle_website_removed env A s)).1.alarms
      = throughputAlarmName B :: latencyAlarmName B :: availabilityAlarmName B
          :: (handle_website_removed env A s).alarms := by
    rw [handle_added_alarms env B _ hB1 hB2 hB3]
    have m1 : availabilityAlarmName B ∉ (handle_website_removed env A s).alarms :=
      hBnot _ (by simp [alarmNamesFor])
    have m2 : latencyAlarmName B ∉
        insertAlarm (availabilityAlarmName B) (handle_website_removed env A s).alarms := by
      rw [insertAlarm, if_neg m1]
      intro hmem
      rcases List.mem_cons.mp hmem with h | h
      · exact lat_ne_avail B h
      · exact hBnot _ (by simp [alarmNamesFor]) h
    have m3 : throughputAlarmName B ∉
        insertAlarm (latencyAlarmName B)
          (insertAlarm (availabilityAlarmName B) (handle_website_removed env A s).alarms) := by
      rw [insertAlarm, if_neg m2, insertAlarm, if_neg m1]
      intro hmem
      rcases List.mem_cons.mp hmem with h | h
      · exact thr_ne_lat B h
      rcases List.mem_cons.mp h with h2 | h2
      · exact thr_ne_avail B h2
      · exact hBnot _ (by simp [alarmNamesFor]) h2
    rw [insertAlarm, if_neg m3, insertAlarm, if_neg m2, insertAlarm, if_neg m1]
  rw [hstep, e2]
  have hfilterNil : (handle_website_removed env A s).alarms.filter
      (strStartsWith (B ++ "-")) = [] := by
    rw [List.filter_eq_nil_iff]
    intro m hm
    rw [hBpre m (sub1 m hm)]
    exact Bool.false_ne_true
  refine ⟨?_, ?_, ?_⟩
  · intro m hm
    rcases List.mem_cons.mp hm with h | h
    · exact h ▸ hAB _ (by simp [alarmNamesFor])
    rcases List.mem_cons.mp h with h2 | h2
    · exact h2 ▸ hAB _ (by simp [alarmNamesFor])
    rcases List.mem_cons.mp h2 with h3 | h3
    · exact h3 ▸ hAB _ (by simp [alarmNamesFor])
    · rw [Bool.eq_false_iff]
      intro htrue
      exact subA m h3 (hA m (sub1 m h3) htrue)
  · simp [List.filter_cons, prefix_avail, prefix_lat, prefix_thr, hfilterNil]
  · simp [List.filter_cons, prefix_avail, prefix_lat, prefix_thr, hfilterNil]

/-- Witness for C1: renaming website A to B in a backend holding exactly A's
three template alarms. -/
theorem rename_removes_old_creates_new_witness :
    (("A" : String) ≠ "B" ∧
      (∀ m ∈ renameState.alarms, strStartsWith ("A" ++ "-") m = true → m ∈ alarmNamesFor "A") ∧
      (∀ m ∈ renameState.alarms, strStartsWith ("B" ++ "-") m = false) ∧
      (∀ m ∈ alarmNamesFor "B", strStartsWith ("A" ++ "-") m = false)) ∧
    ((∀ m ∈ (processRecord envAllOk renameState (.modify "A" "B")).1.alarms,
        strStartsWith ("A" ++ "-") m = false) ∧
      (processRecord envAllOk renameState (.modify "A" "B")).1.alarms.filter
          (strStartsWith ("B" ++ "-"))
        = [throughputAlarmName "B", latencyAlarmName "B", availabilityAlarmName "B"] ∧
      ((processRecord envAllOk renameState (.modify "A" "B")).1.alarms.filter
          (strStartsWith ("B" ++ "-"))).length = 3) :=
  ⟨⟨by decide, by decide, by decide, by decide⟩,
   rename_removes_old_creates_new envAllOk renameState "A" "B" (by decide) rfl rfl rfl rfl
     (by decide) (by decide) (by decide)⟩

/-- C2 counterexample: when the batched delete_alarms call raises, the
reconciler does not attempt the dashboard-widget removal at all — no
get_dashboard call is issued and SiteA's series stays on the dashboard —
refuting the claim that widget removal is attempted regardless of the alarm
deletion outcome. -/
theorem removed_widget_cleanup_counterexample :
    CWCall.getDashboard ∉ (handle_website_removed envNoDelete "SiteA" dashState).calls ∧
    (handle_website_removed envNoDelete "SiteA" dashState).dashboard
      = some ⟨[exampleWidget2]⟩ := by
  decide

/-- C2 (amended): widget removal is attempted exactly when the batched alarm
deletion succeeded: if delete_alarms raises, the handler catches the
exception and returns with only the delete call traced (state otherwise
untouched); if delete_alarms succeeds, the widget removal is attempted
(its get_dashboard call is issued). -/
theorem removed_widget_cleanup_gated (env : Env) (n : String) (s : CWState) :
    (env.deleteAlarmsOk = false →
      handle_website_removed env n s = recordCall (.deleteAlarms (alarmNamesFor n)) s) ∧
    (env.deleteAlarmsOk = true →
      CWCall.getDashboard ∈ (handle_website_removed env n s).calls) := by
  constructor
  · intro h
    simp [handle_website_removed, deleteAlarmsBatch, h]
  · intro h
    simp only [handle_website_removed, deleteAlarmsBatch, h, if_true]
    exact getDashboard_mem_remove env n _

/-- Witness for C2 (amended), at a raising and a succeeding delete call. -/
theorem removed_widget_cleanup_gated_witness :
    (envNoDelete.deleteAlarmsOk = false ∧
      handle_website_removed envNoDelete "SiteA" dashState
        = recordCall (.deleteAlarms (alarmNamesFor "SiteA")) dashState) ∧
    (envAllOk.deleteAlarmsOk = true ∧
      CWCall.getDashboard ∈ (handle_website_removed envAllOk "SiteA" dashState).calls) :=
  ⟨⟨rfl, (removed_widget_cleanup_gated envNoDelete "SiteA" dashState).1 rfl⟩,
   ⟨rfl, (removed_widget_cleanup_gated envAllOk "SiteA" dashState).2 rfl⟩⟩

/-- C3 (code bug, evaluated at the failing input): removing the last
remaining target SiteA from an aggregate widget that holds exactly SiteA's
series leaves the dashboard document unchanged — the widget still carries
SiteA's series, no placeholder is substituted and no put_dashboard call is
issued — because the substituted placeholder list has length 1, which is not
smaller than the original length 1, so the update and the write-back are
skipped. -/
theorem remove_last_target_leaves_widget :
    (remove_dashboard_widgets envAllOk "SiteA" lastTargetState).dashboard
      = some ⟨[exampleWidget]⟩ ∧
    CWCall.putDashboard ∉ (remove_dashboard_widgets envAllOk "SiteA" lastTargetState).calls := by
  decide

/-- C4: create_alarms_for_website issues, for each of the Latency and
Throughput metrics, the put_anomaly_detector call strictly before the
put_metric_alarm call of the corresponding anomaly-band alarm (the full call
trace is computed below), both detectors exist afterwards, and the function
succeeds for every starting detector set — in particular when the baselines
already exist, whose conflict response is caught, so re-creation is not an
error. -/
theorem create_baseline_before_alarm (env : Env) (s : CWState) (n : String)
    (h0 : s.calls = [])
    (h1 : env.putAlarmOk (availabilityAlarmName n) = true)
    (h2 : env.putAlarmOk (n ++ "-" ++ "Latency-Alarm") = true)
    (h3 : env.putAlarmOk (n ++ "-" ++ "Throughput-Alarm") = true) :
    (create_alarms_for_website env n s).2 = false ∧
    (create_alarms_for_website env n s).1.calls
      = [.putMetricAlarm (availabilityAlarmName n),
         .putAnomalyDetector METRIC_LATENCY n,
         .putMetricAlarm (n ++ "-" ++ "Latency-Alarm"),
         .putAnomalyDetector METRIC_THROUGHPUT n,
         .putMetricAlarm (n ++ "-" ++ "Throughput-Alarm")] ∧
    (METRIC_LATENCY, n) ∈ (create_alarms_for_website env n s).1.detectors ∧
    (METRIC_THROUGHPUT, n) ∈ (create_alarms_for_website env n s).1.detectors := by
  by_cases hL : (("Latency" : String), n) ∈ s.detectors <;>
    by_cases hT : (("Throughput" : String), n) ∈ s.detectors <;>
    simp [create_alarms_for_website, create_anomaly_detection_alarm, putAnomalyDetector,
      putMetricAlarm, recordCall, insertAlarm, h0, h1, h2, h3, hL, hT,
      METRIC_LATENCY, METRIC_THROUGHPUT]

/-- Witness for C4 in a state where both anomaly baselines for Site already
exist: creation still succeeds and the trace shows baseline-before-alarm. -/
theorem create_baseline_before_alarm_witness :
    (detectorState.calls = [] ∧
      envAllOk.putAlarmOk (availabilityAlarmName "Site") = true) ∧
    ((create_alarms_for_website envAllOk "Site" detectorState).2 = false ∧
      (create_alarms_for_website envAllOk "Site" detectorState).1.calls
        = [.putMetricAlarm (availabilityAlarmName "Site"),
           .putAnomalyDetector METRIC_LATENCY "Site",
           .putMetricAlarm ("Site" ++ "-" ++ "Latency-Alarm"),
           .putAnomalyDetector METRIC_THROUGHPUT "Site",
           .putMetricAlarm ("Site" ++ "-" ++ "Throughput-Alarm")] ∧
      (METRIC_LATENCY, "Site")
        ∈ (create_alarms_for_website envAllOk "Site" detectorState).1.detectors ∧
      (METRIC_THROUGHPUT, "Site")
        ∈ (create_alarms_for_website envAllOk "Site" detectorState).1.detectors) :=
  ⟨⟨rfl, rfl⟩, create_baseline_before_alarm envAllOk detectorState "Site" rfl rfl rfl rfl⟩

/-- C5: if any of the three alarm-creation calls for an Added(name) event
fails, the event's processing is aborted (the exception propagates out of
handle_website_added), the dashboard is unchanged — no widget is added for
the alarm-less target — and the trace gained only the alarm-creation calls
attempted so far (no dashboard call). -/
theorem added_alarm_failure_aborts (env : Env) (n : String) (s : CWState)
    (h : (env.putAlarmOk (availabilityAlarmName n) && env.putAlarmOk (latencyAlarmName n) &&
          env.putAlarmOk (throughputAlarmName n)) = false) :
    (processRecord env s (.insert n)).2 = true ∧
    (processRecord env s (.insert n)).1.dashboard = s.dashboard ∧
    ∃ k, k ≤ 3 ∧ (processRecord env s (.insert n)).1.calls
      = s.calls ++ ((alarmNamesFor n).map CWCall.putMetricAlarm).take k := by
  cases h1 : env.putAlarmOk (availabilityAlarmName n) with
  | false =>
    refine ⟨?_, ?_, 1, by norm_num, ?_⟩ <;>
      simp [processRecord, handle_website_added, putMetricAlarm, recordCall, h1, alarmNamesFor]
  | true =>
    cases h2 : env.putAlarmOk (latencyAlarmName n) with
    | false =>
      refine ⟨?_, ?_, 2, by norm_num, ?_⟩ <;>
        simp [processRecord, handle_website_added, putMetricAlarm, recordCall, h1, h2, alarmNamesFor]
    | true =>
      cases h3 : env.putAlarmOk (throughputAlarmName n) with
      | false =>
        refine ⟨?_, ?_, 3, by norm_num, ?_⟩ <;>
          simp [processRecord, handle_website_added, putMetricAlarm, recordCall, h1, h2, h3,
            alarmNamesFor]
      | true => simp [h1, h2, h3] at h

/-- Witness for C5: the Availability alarm creation for website X raises. -/
theorem added_alarm_failure_aborts_witness :
    ((envFailX.putAlarmOk (availabilityAlarmName "X") &&
        envFailX.putAlarmOk (latencyAlarmName "X") &&
        envFailX.putAlarmOk (throughputAlarmName "X")) = false) ∧
    ((processRecord envFailX emptyState (.insert "X")).2 = true ∧
      (processRecord envFailX emptyState (.insert "X")).1.dashboard = emptyState.dashboard ∧
      ∃ k, k ≤ 3 ∧ (processRecord envFailX emptyState (.insert "X")).1.calls
        = emptyState.calls ++ ((alarmNamesFor "X").map CWCall.putMetricAlarm).take k) :=
  ⟨by decide, added_alarm_failure_aborts envFailX "X" emptyState (by decide)⟩

/-- C6: events of a batch are processed one at a time in delivery order; an
exception raised while processing the first event is caught, and the second
event is still processed on the resulting state — in particular its first
Alarm Manager call (the Availability put_metric_alarm) is invoked. -/
theorem batch_isolation_second_event_processed (env : Env) (s : CWState)
    (r : StreamRecord) (n : String)
    (_h : (processRecord env s r).2 = true) :
    lambda_handler env [r, .insert n] s
      = (handle_website_added env n (processRecord env s r).1).1 ∧
    CWCall.putMetricAlarm (availabilityAlarmName n)
      ∈ (lambda_handler env [r, .insert n] s).calls := by
  refine ⟨rfl, ?_⟩
  show CWCall.putMetricAlarm (availabilityAlarmName n)
    ∈ (handle_website_added env n (processRecord env s r).1).1.calls
  exact mem_calls_handle_added env n _

/-- Witness for C6: a two-event batch whose first event (insert X) raises
during alarm creation; the second event (insert B) is still processed. -/
theorem batch_isolation_second_event_processed_witness :
    ((processRecord envFailX emptyState (.insert "X")).2 = true) ∧
    (lambda_handler envFailX [.insert "X", .insert "B"] emptyState
        = (handle_website_added envFailX "B"
            (processRecord envFailX emptyState (.insert "X")).1).1 ∧
      CWCall.putMetricAlarm (availabilityAlarmName "B")
        ∈ (lambda_handler envFailX [.insert "X", .insert "B"] emptyState).calls) :=
  ⟨by decide,
   batch_isolation_second_event_processed envFailX emptyState (.insert "X") "B" (by decide)⟩

/-- C7: deleting a website's alarms twice in a row produces no error on the
second call and leaves zero alarms for the name after either call: after the
first delete_alarms_for_website none of the three template alarms (nor the
two anomaly detectors) remains, so each backend call of the second pass
answers resource-not-found — the response the source catches and treats as
success — and the second pass likewise ends with zero alarms for the name. -/
theorem delete_twice_idempotent (s : CWState) (n : String) :
    (∀ a ∈ alarmNamesFor n, a ∉ (delete_alarms_for_website n s).alarms) ∧
    (∀ a ∈ alarmNamesFor n,
      a ∉ (delete_alarms_for_website n (delete_alarms_for_website n s)).alarms) ∧
    (deleteSingleAlarm (availabilityAlarmName n)
        (delete_alarms_for_website n s)).2 = .notFound ∧
    (deleteSingleAlarm (latencyAlarmName n)
      (deleteSingleAlarm (availabilityAlarmName n)
        (delete_alarms_for_website n s)).1).2 = .notFound ∧
    (deleteSingleAlarm (throughputAlarmName n)
      (deleteSingleAlarm (latencyAlarmName n)
        (deleteSingleAlarm (availabilityAlarmName n)
          (delete_alarms_for_website n s)).1).1).2 = .notFound ∧
    (deleteAnomalyDetector METRIC_LATENCY n
      (deleteSingleAlarm (throughputAlarmName n)
        (deleteSingleAlarm (latencyAlarmName n)
          (deleteSingleAlarm (availabilityAlarmName n)
            (delete_alarms_for_website n s)).1).1).1).2 = .notFound ∧
    (deleteAnomalyDetector METRIC_THROUGHPUT n
      (deleteAnomalyDetector METRIC_LATENCY n
        (deleteSingleAlarm (throughputAlarmName n)
          (deleteSingleAlarm (latencyAlarmName n)
            (deleteSingleAlarm (availabilityAlarmName n)
              (delete_alarms_for_website n s)).1).1).1).1).2 = .notFound := by
  have c1 : ∀ a ∈ alarmNamesFor n, a ∉ (delete_alarms_for_website n s).alarms := by
    intro a ha hmem
    exact ((alarms_delete_for_website n s a).mp hmem).2 ha
  have hav : availabilityAlarmName n ∈ alarmNamesFor n := by simp [alarmNamesFor]
  have hla : latencyAlarmName n ∈ alarmNamesFor n := by simp [alarmNamesFor]
  have hth : throughputAlarmName n ∈ alarmNamesFor n := by simp [alarmNamesFor]
  have hdl : (METRIC_LATENCY, n) ∉ (delete_alarms_for_website n s).detectors := by
    intro hmem
    exact ((detectors_delete_for_website n s _).mp hmem).2.1 rfl
  have hdt : (METRIC_THROUGHPUT, n) ∉ (delete_alarms_for_website n s).detectors := by
    intro hmem
    exact ((detectors_delete_for_website n s _).mp hmem).2.2 rfl
  refine ⟨c1, ?_, ?_, ?_, ?_, ?_, ?_⟩
  · intro a ha hmem
    exact ((alarms_delete_for_website n _ a).mp hmem).2 ha
  · exact (deleteSingle_absent _ _ (c1 _ hav)).2
  · refine (deleteSingle_absent _ _ ?_).2
    intro hmem
    exact (c1 _ hla) ((mem_alarms_deleteSingle _ _ _).mp hmem).1
  · refine (deleteSingle_absent _ _ ?_).2
    intro hmem
    exact (c1 _ hth)
      (((mem_alarms_deleteSingle _ _ _).mp ((mem_alarms_deleteSingle _ _ _).mp hmem).1).1)
  · refine (deleteDetector_absent _ _ _ ?_).2
    rw [detectors_deleteSingle, detectors_deleteSingle, detectors_deleteSingle]
    exact hdl
  · refine (deleteDetector_absent _ _ _ ?_).2
    intro hmem
    have := ((mem_detectors_deleteDetector _ _ _ _).mp hmem).1
    rw [detectors_deleteSingle, detectors_deleteSingle, detectors_deleteSingle] at this
    exact hdt this

/-- C8: the probe classifies failures in two distinct ways and never raises
(monitor_website is total and returns a result dictionary in every case).
Transport-level failure: availability = 0, latency_ms = null, throughput = 0,
success = false, error message captured verbatim.  HTTP error response:
availability = 0, latency_ms = the measured (nonnegative) duration,
throughput = 0, success = false, the received status code recorded, and the
error string capturing status and reason. -/
theorem probe_failure_classification :
    (∀ (n u msg : String) (ts : ℚ),
      List.lookup "availability" (monitor_website n u (.failure msg) ts) = some (.num 0) ∧
      List.lookup "latency_ms" (monitor_website n u (.failure msg) ts) = some .null ∧
      List.lookup "throughput_bps" (monitor_website n u (.failure msg) ts) = some (.num 0) ∧
      List.lookup "success" (monitor_website n u (.failure msg) ts) = some (.bool false) ∧
      List.lookup "error" (monitor_website n u (.failure msg) ts) = some (.str msg)) ∧
    (∀ (n u reason : String) (code : Nat) (lat ts : ℚ), 0 ≤ lat →
      List.lookup "availability" (monitor_website n u (.httpError code reason lat) ts)
        = some (.num 0) ∧
      (∃ l : ℚ, 0 ≤ l ∧
        List.lookup "latency_ms" (monitor_website n u (.httpError code reason lat) ts)
          = some (.num l)) ∧
      List.lookup "throughput_bps" (monitor_website n u (.httpError code reason lat) ts)
        = some (.num 0) ∧
      List.lookup "success" (monitor_website n u (.httpError code reason lat) ts)
        = some (.bool false) ∧
      List.lookup "status_code" (monitor_website n u (.httpError code reason lat) ts)
        = some (.num code) ∧
      List.lookup "error" (monitor_website n u (.httpError code reason lat) ts)
        = some (.str ("HTTP " ++ toString code ++ ": " ++ reason))) := by
  constructor
  · intro n u msg ts
    simp [monitor_website, List.lookup]
  · intro n u reason code lat ts h
    refine ⟨?_, ⟨lat, h, ?_⟩, ?_, ?_, ?_, ?_⟩ <;> simp [monitor_website, List.lookup]

/-- Witness for C8 at concrete inputs: a connection-refused probe and an
HTTP 404 probe measured at 5 ms. -/
theorem probe_failure_classification_witness :
    (List.lookup "availability" (monitor_website "Site" "https://s" (.failure "conn refused") 0)
        = some (.num 0) ∧
      List.lookup "latency_ms" (monitor_website "Site" "https://s" (.failure "conn refused") 0)
        = some .null ∧
      List.lookup "throughput_bps" (monitor_website "Site" "https://s" (.failure "conn refused") 0)
        = some (.num 0) ∧
      List.lookup "success" (monitor_website "Site" "https://s" (.failure "conn refused") 0)
        = some (.bool false) ∧
      List.lookup "error" (monitor_website "Site" "https://s" (.failure "conn refused") 0)
        = some (.str "conn refused")) ∧
    ((0 : ℚ) ≤ 5 ∧
      List.lookup "availability"
          (monitor_website "Site" "https://s" (.httpError 404 "Not Found" 5) 0)
        = some (.num 0) ∧
      (∃ l : ℚ, 0 ≤ l ∧
        List.lookup "latency_ms"
            (monitor_website "Site" "https://s" (.httpError 404 "Not Found" 5) 0)
          = some (.num l)) ∧
      List.lookup "throughput_bps"
          (monitor_website "Site" "https://s" (.httpError 404 "Not Found" 5) 0)
        = some (.num 0) ∧
      List.lookup "success"
          (monitor_website "Site" "https://s" (.httpError 404 "Not Found" 5) 0)
        = some (.bool false) ∧
      List.lookup "status_code"
          (monitor_website "Site" "https://s" (.httpError 404 "Not Found" 5) 0)
        = some (.num 404) ∧
      List.lookup "error"
          (monitor_website "Site" "https://s" (.httpError 404 "Not Found" 5) 0)
        = some (.str ("HTTP " ++ toString 404 ++ ": " ++ "Not Found"))) :=
  ⟨probe_failure_classification.1 "Site" "https://s" "conn refused" 0,
   by norm_num,
   probe_failure_classification.2 "Site" "https://s" "Not Found" 404 5 0 (by norm_num)⟩

/-- C9: for every probe that received a response and whose measured latency
is zero, the computed throughput is exactly zero: the division of body bytes
by latency-in-seconds is guarded by the `latency_ms > 0` test, so (in the
rational model) no division by zero is ever performed and the result is a
well-defined 0 rather than an infinity or NaN. -/
theorem zero_latency_throughput :
    ∀ (n u : String) (statusCode bodyBytes : Nat) (ts : ℚ),
      List.lookup "throughput_bps" (monitor_website n u (.response statusCode bodyBytes 0) ts)
        = some (.num 0) := by
  intro n u sc body ts
  simp [monitor_website, List.lookup]

/-- C10: the result of monitor_website contains a "status_code" key exactly
when an HTTP response was received (the success case and the HTTP-error
case, where it holds the received code); for a transport-level failure the
key is absent altogether — while "latency_ms" is present with a null value —
so a consumer reading status_code from a transport-failure result fails with
a missing-key error. -/
theorem status_code_presence :
    (∀ (n u : String) (statusCode bodyBytes : Nat) (lat ts : ℚ),
      List.lookup "status_code" (monitor_website n u (.response statusCode bodyBytes lat) ts)
        = some (.num statusCode)) ∧
    (∀ (n u reason : String) (code : Nat) (lat ts : ℚ),
      List.lookup "status_code" (monitor_website n u (.httpError code reason lat) ts)
        = some (.num code)) ∧
    (∀ (n u msg : String) (ts : ℚ),
      List.lookup "status_code" (monitor_website n u (.failure msg) ts) = none ∧
      List.lookup "latency_ms" (monitor_website n u (.failure msg) ts) = some .null) := by
  refine ⟨fun n u sc body lat ts => ?_, fun n u reason code lat ts => ?_,
    fun n u msg ts => ?_⟩ <;> simp [monitor_website, List.lookup]
